import Mathlib

/-!
Shallow embedding of the particle-visualization repository:
`src/services/geometry.ts` (shape generators), `src/components/ParticleSystem.tsx`
(per-frame animator, retarget effect, rotation), `src/App.tsx` (gesture
interpretation in `predictWebcam`), and the shared types.  JavaScript numbers
are modelled as real numbers; each call to `Math.random()` is modelled by an
explicit input drawn from an injectable random source (a function from the
draw site and particle index to a real number in `[0, 1]`).
-/

/-- A 3-D point, as stored (flattened) in the `Float32Array` buffers. -/
@[ext]
structure Vec3 where
  x : ℝ
  y : ℝ
  z : ℝ

/-- One hand keypoint in normalized image coordinates (`landmarks[i]` in
`App.tsx`; only the `x`/`y` fields are read by the code). -/
structure Landmark where
  x : ℝ
  y : ℝ

/-- The `GestureState` interface of `src/types.ts`. -/
structure GestureState where
  isOpen : Bool
  openness : ℝ
  rotationX : ℝ
  pinchDistance : ℝ
  isPinching : Bool
  handDetected : Bool

/-- The `ShapeType` enum of `src/types.ts`. -/
inductive ShapeType where
  | TREE
  | HEART
  | STAR
  | SPHERE
  | FLOWER
deriving DecidableEq

/-- `PARTICLE_COUNT` from `src/constants.ts`. -/
def PARTICLE_COUNT : ℕ := 4000

/-- A random source: `rnd k i` is the value `Math.random()` returns at the
`k`-th draw site of the loop body, in iteration `i`. -/
def RandSource : Type := ℕ → ℕ → ℝ

/-- `randomOnSphere` from `src/services/geometry.ts`, with its three
`Math.random()` draws passed in as `u₁ u₂ u₃`:
`theta = u₁ * π * 2`, `phi = acos(2 * u₂ - 1)`, `r = 4 + u₃`. -/
noncomputable def randomOnSphere (u₁ u₂ u₃ : ℝ) : Vec3 :=
  let theta := u₁ * Real.pi * 2
  let phi := Real.arccos (2 * u₂ - 1)
  let r := 4 + u₃
  { x := r * Real.sin phi * Real.cos theta
  , y := r * Real.sin phi * Real.sin theta
  , z := r * Real.cos phi }

/-- The body of the loop in `generateTreePoints`: the `i`-th point, with the
two `Math.random()` draws (the x- and z-jitter) passed in as `jx`, `jz`. -/
noncomputable def generateTreePoint (count i : ℕ) (jx jz : ℝ) : Vec3 :=
  let t : ℝ := (i : ℝ) / (count : ℝ)
  let angle := t * Real.pi * 20
  let radius := t * 3.5
  { x := Real.cos angle * radius + (jx - 0.5) * 0.5
  , y := -3 + (1 - t) * 7
  , z := Real.sin angle * radius + (jz - 0.5) * 0.5 }

/-- The body of the loop in `generateHeartPoints`, with its three
`Math.random()` draws passed in as `u₁ u₂ u₃`. -/
noncomputable def generateHeartPoint (u₁ u₂ u₃ : ℝ) : Vec3 :=
  let t := u₁ * Real.pi * 2
  let r := u₂
  let scale : ℝ := 0.25
  { x := 16 * Real.sin t ^ 3 * scale * (0.8 + r * 0.2)
  , y := (13 * Real.cos t - 5 * Real.cos (2 * t) - 2 * Real.cos (3 * t) -
      Real.cos (4 * t)) * scale * (0.8 + r * 0.2)
  , z := (u₃ - 0.5) * 2 }

/-- The body of the loop in `generateStarPoints`, with its four
`Math.random()` draws passed in as `u₁ u₂ u₃ u₄`. -/
noncomputable def generateStarPoint (u₁ u₂ u₃ u₄ : ℝ) : Vec3 :=
  let theta := u₁ * Real.pi * 2
  let rBase : ℝ := 3
  let spike := |Real.sin (theta * 2.5)|
  let r := rBase + spike * 2.5
  { x := r * Real.cos theta * u₂
  , y := r * Real.sin theta * u₃
  , z := (u₄ - 0.5) * 1.5 }

/-- The body of the loop in `generateFlowerPoints`, with its three
`Math.random()` draws passed in as `u₁ u₂ u₃`. -/
noncomputable def generateFlowerPoint (u₁ u₂ u₃ : ℝ) : Vec3 :=
  let k : ℝ := 4
  let theta := u₁ * Real.pi * 2
  let rMax : ℝ := 4
  let r := rMax * Real.cos (k * theta) * u₂
  { x := r * Real.cos theta
  , y := r * Real.sin theta
  , z := Real.sin r * 1.5 + (u₃ - 0.5) }

/-- Flattening of the first `n` points into the flat position buffer: entry
`3*i` holds `(f i).x`, entry `3*i+1` holds `(f i).y`, entry `3*i+2` holds
`(f i).z`, exactly as the loops write `positions[i*3 + k]`. -/
noncomputable def flattenPoints (f : ℕ → Vec3) : ℕ → List ℝ
  | 0 => []
  | n + 1 => flattenPoints f n ++ [(f n).x, (f n).y, (f n).z]

/-- `generateTreePoints` from `src/services/geometry.ts`. -/
noncomputable def generateTreePoints (count : ℕ) (rnd : RandSource) : List ℝ :=
  flattenPoints (fun i => generateTreePoint count i (rnd 0 i) (rnd 1 i)) count

/-- `generateHeartPoints` from `src/services/geometry.ts`. -/
noncomputable def generateHeartPoints (count : ℕ) (rnd : RandSource) : List ℝ :=
  flattenPoints (fun i => generateHeartPoint (rnd 0 i) (rnd 1 i) (rnd 2 i)) count

/-- `generateSpherePoints` from `src/services/geometry.ts`. -/
noncomputable def generateSpherePoints (count : ℕ) (rnd : RandSource) : List ℝ :=
  flattenPoints (fun i => randomOnSphere (rnd 0 i) (rnd 1 i) (rnd 2 i)) count

/-- `generateStarPoints` from `src/services/geometry.ts`. -/
noncomputable def generateStarPoints (count : ℕ) (rnd : RandSource) : List ℝ :=
  flattenPoints (fun i => generateStarPoint (rnd 0 i) (rnd 1 i) (rnd 2 i) (rnd 3 i)) count

/-- `generateFlowerPoints` from `src/services/geometry.ts`. -/
noncomputable def generateFlowerPoints (count : ℕ) (rnd : RandSource) : List ℝ :=
  flattenPoints (fun i => generateFlowerPoint (rnd 0 i) (rnd 1 i) (rnd 2 i)) count

/-- The `switch (shape)` dispatch of the retarget effect in
`src/components/ParticleSystem.tsx`: the generator chosen for each shape. -/
noncomputable def shapeTargetPoints (shape : ShapeType) (count : ℕ) (rnd : RandSource) :
    List ℝ :=
  match shape with
  | .TREE => generateTreePoints count rnd
  | .HEART => generateHeartPoints count rnd
  | .STAR => generateStarPoints count rnd
  | .SPHERE => generateSpherePoints count rnd
  | .FLOWER => generateFlowerPoints count rnd

/-- Euclidean distance of a point from the origin. -/
noncomputable def distOrigin (v : Vec3) : ℝ :=
  Real.sqrt (v.x ^ 2 + v.y ^ 2 + v.z ^ 2)

/-- The `i`-th point of a flat position buffer (entries `3*i`, `3*i+1`,
`3*i+2`; out-of-range reads default to `0`). -/
noncomputable def listPoint (ps : List ℝ) (i : ℕ) : Vec3 :=
  { x := ps.getD (3 * i) 0, y := ps.getD (3 * i + 1) 0, z := ps.getD (3 * i + 2) 0 }

/-- `lerpSpeed = 3.0 * delta` from the `useFrame` body of
`src/components/ParticleSystem.tsx`. -/
noncomputable def lerpSpeed (delta : ℝ) : ℝ := 3 * delta

/-- `spreadFactor = gesture.openness * 3.0` from the `useFrame` body. -/
noncomputable def spreadFactor (openness : ℝ) : ℝ := openness * 3

/-- Per-axis adjusted target from the `useFrame` body: when
`spreadFactor > 0.1` the base target `t` gets
`t * spreadFactor + (Math.random() - 0.5) * spreadFactor` added (the draw
passed in as `j`), otherwise it is used as is. -/
noncomputable def adjustTarget (t s j : ℝ) : ℝ :=
  if s > 0.1 then t + (t * s + (j - 0.5) * s) else t

/-- One per-axis smoothing update from the `useFrame` body:
`currentPositions[ix] += (tx - currentPositions[ix]) * lerpSpeed`,
with the gesture-adjusted target. -/
noncomputable def animateAxis (pos t s j l : ℝ) : ℝ :=
  pos + (adjustTarget t s j - pos) * l

/-- The smoothing update of one particle toward a fixed (already adjusted)
target, the three axes updated exactly as in the `useFrame` body. -/
noncomputable def animateStep (pos target : Vec3) (l : ℝ) : Vec3 :=
  { x := pos.x + (target.x - pos.x) * l
  , y := pos.y + (target.y - pos.y) * l
  , z := pos.z + (target.z - pos.z) * l }

/-- `n` consecutive smoothing frames toward a fixed target with a fixed
lerp speed. -/
noncomputable def animateIter (target : Vec3) (l : ℝ) : ℕ → Vec3 → Vec3
  | 0, p => p
  | n + 1, p => animateStep (animateIter target l n p) target l

/-- Euclidean distance between two points. -/
noncomputable def vdist (a b : Vec3) : ℝ :=
  Real.sqrt ((a.x - b.x) ^ 2 + (a.y - b.y) ^ 2 + (a.z - b.z) ^ 2)

/-- The constant factor `2` the rotation code multiplies by last
(`pointsRef.current.rotation.y += rotationForce * delta * 2`). -/
noncomputable def rotationGain : ℝ := 2

/-- The per-frame rotation increment from the end of the `useFrame` body:
with a hand, `rotationForce = (gesture.rotationX - 0.5) * 2` and the
increment is `rotationForce * delta * 2`; with no hand, `0.1 * delta`. -/
noncomputable def rotationDelta (handDetected : Bool) (rotationX delta : ℝ) : ℝ :=
  if handDetected then (rotationX - 0.5) * 2 * delta * 2 else 0.1 * delta

/-- Euclidean distance between two landmarks, as `predictWebcam` computes it
(`Math.sqrt(dx*dx + dy*dy)`). -/
noncomputable def landmarkDist (a b : Landmark) : ℝ :=
  Real.sqrt ((a.x - b.x) ^ 2 + (a.y - b.y) ^ 2)

/-- The "no hand" branch of `predictWebcam` in `src/App.tsx`:
`handDetected = false` and `openness = Math.max(0, openness - 0.05)`;
every other field keeps its value. -/
noncomputable def noHandUpdate (g : GestureState) : GestureState :=
  { g with handDetected := false, openness := max 0 (g.openness - 0.05) }

/-- `n` consecutive "no hand" interpretations. -/
noncomputable def noHandIter : ℕ → GestureState → GestureState
  | 0, g => g
  | n + 1, g => noHandUpdate (noHandIter n g)

/-- The gesture state the hand branch of `predictWebcam` builds from the
wrist, the five fingertips and the middle-finger knuckle: openness from the
average tip-to-wrist distance rescaled from 0.2..0.4 and clamped to `[0,1]`,
`rotationX = 1 - knuckle.x`, pinch from the thumb-tip/index-tip distance
against the 0.05 threshold. -/
noncomputable def interpretedGesture
    (wrist thumbTip indexTip middleTip ringTip pinkyTip knuckle : Landmark) :
    GestureState :=
  let avgDist := (landmarkDist thumbTip wrist + landmarkDist indexTip wrist +
    landmarkDist middleTip wrist + landmarkDist ringTip wrist +
    landmarkDist pinkyTip wrist) / 5
  let opennessRaw := (avgDist - 0.2) / (0.4 - 0.2)
  let openness := min (max opennessRaw 0) 1
  let rotationX := 1 - knuckle.x
  let pinchDist := landmarkDist thumbTip indexTip
  { isOpen := decide (openness > 0.6)
  , openness := openness
  , rotationX := rotationX
  , pinchDistance := pinchDist
  , isPinching := decide (pinchDist < 0.05)
  , handDetected := true }

/-- The hand branch of `predictWebcam`: reads `landmarks[0]`, the five
fingertips `landmarks[4/8/12/16/20]` and the knuckle `landmarks[9]`.  A read
past the end of the list is JavaScript `undefined`, whose subsequent field
access throws — modelled as `none`. -/
noncomputable def interpretLandmarks (lms : List Landmark) : Option GestureState :=
  match lms[0]?, lms[4]?, lms[8]?, lms[12]?, lms[16]?, lms[20]?, lms[9]? with
  | some wrist, some thumbTip, some indexTip, some middleTip, some ringTip,
      some pinkyTip, some knuckle =>
    some (interpretedGesture wrist thumbTip indexTip middleTip ringTip pinkyTip knuckle)
  | _, _, _, _, _, _, _ => none

/-- One run of `predictWebcam`'s branching on the detector result: with a
nonempty landmark list it interprets `landmarks[0]`, otherwise it takes the
"no hand" branch on the previous gesture state. -/
noncomputable def predictStep (prev : GestureState)
    (results : Option (List (List Landmark))) : Option GestureState :=
  match results with
  | some (lms :: _) => interpretLandmarks lms
  | some [] => some (noHandUpdate prev)
  | none => some (noHandUpdate prev)

/-- `min(max(x, 0), 1)`, the clamp the interpreter applies to openness. -/
noncomputable def clamp01 (x : ℝ) : ℝ := min (max x 0) 1

/-- The four attribute streams owned by `ParticleSystem` (`currentPositions`,
`targetPositions`, `colors`, `sizes`) together with the particle count. -/
structure ParticleStore where
  count : ℕ
  currentPositions : List ℝ
  targetPositions : List ℝ
  colors : List ℝ
  sizes : List ℝ

/-- The copy loop of the retarget effect:
`for i < 3*PARTICLE_COUNT, targetPositions[i] = newPos[i]` — each entry of
the destination is overwritten by the corresponding source entry as long as
source entries remain. -/
noncomputable def copyInto : List ℝ → List ℝ → List ℝ
  | dst, [] => dst
  | [], _ :: _ => []
  | _ :: ds, s :: ss => s :: copyInto ds ss

/-- The shape-change `useEffect` of `src/components/ParticleSystem.tsx`: the
freshly generated points are copied into the target stream; the current
positions, colors and sizes are not touched. -/
noncomputable def retargetStore (st : ParticleStore) (newPos : List ℝ) : ParticleStore :=
  { st with targetPositions := copyInto st.targetPositions newPos }

/-- Follows the claim's words for the tree generator (not the source): the
same point but with a jitter term added on each of the three axes, the
y-jitter draw passed in as `jy`. -/
noncomputable def generateTreePointClaim (count i : ℕ) (jx jy jz : ℝ) : Vec3 :=
  let t : ℝ := (i : ℝ) / (count : ℝ)
  let angle := t * (2 * Real.pi) * 10
  let radius := t * 3.5
  { x := Real.cos angle * radius + (jx - 0.5) * 0.5
  , y := -3 + (1 - t) * 7 + (jy - 0.5) * 0.5
  , z := Real.sin angle * radius + (jz - 0.5) * 0.5 }

/-- A detector result made of the full 21 landmarks, all at the origin. -/
noncomputable def testHand : List Landmark := List.replicate 21 { x := 0, y := 0 }

/-- The gesture state the interpreter computes on `testHand`. -/
noncomputable def testHandGesture : GestureState :=
  { isOpen := false
  , openness := 0
  , rotationX := 1
  , pinchDistance := 0
  , isPinching := true
  , handDetected := true }

/-- The initial `gestureRef` value of `src/App.tsx`. -/
noncomputable def gIdle : GestureState :=
  { isOpen := false
  , openness := 0
  , rotationX := 0.5
  , pinchDistance := 0
  , isPinching := false
  , handDetected := false }

/-- A malformed detector result: a hand is reported but its landmark list
holds a single keypoint, so the expected indices 4, 8, 12, 16, 20, 9 are
absent. -/
noncomputable def malformedHand : List (List Landmark) := [[{ x := 0.5, y := 0.5 }]]

/-- A one-particle store used to exercise the retarget effect on concrete
data. -/
noncomputable def storeW : ParticleStore :=
  { count := 1
  , currentPositions := [1, 2, 3]
  , targetPositions := [0, 0, 0]
  , colors := [4, 5, 6]
  , sizes := [7] }

/-! ## Helper lemmas -/

lemma flattenPoints_length (f : ℕ → Vec3) (n : ℕ) :
    (flattenPoints f n).length = 3 * n := by
  induction n with
  | zero => rfl
  | succ n ih => simp [flattenPoints, ih]; omega

lemma shapeTargetPoints_length (shape : ShapeType) (count : ℕ) (rnd : RandSource) :
    (shapeTargetPoints shape count rnd).length = 3 * count := by
  cases shape <;>
    simp [shapeTargetPoints, generateTreePoints, generateHeartPoints,
      generateSpherePoints, generateStarPoints, generateFlowerPoints,
      flattenPoints_length]

lemma flattenPoints_getD (f : ℕ → Vec3) (n i : ℕ) (hi : i < n) :
    (flattenPoints f n).getD (3 * i) 0 = (f i).x ∧
    (flattenPoints f n).getD (3 * i + 1) 0 = (f i).y ∧
    (flattenPoints f n).getD (3 * i + 2) 0 = (f i).z := by
  induction n with
  | zero => omega
  | succ n ih =>
    rcases Nat.lt_succ_iff_lt_or_eq.mp hi with h | h
    · have hlen := flattenPoints_length f n
      refine ⟨?_, ?_, ?_⟩ <;>
        · show (flattenPoints f n ++ [(f n).x, (f n).y, (f n).z]).getD _ 0 = _
          rw [List.getD_append _ _ _ _ (by omega)]
          first
            | exact (ih h).1
            | exact (ih h).2.1
            | exact (ih h).2.2
    · subst h
      have hlen := flattenPoints_length f i
      refine ⟨?_, ?_, ?_⟩ <;>
        · show (flattenPoints f i ++ [(f i).x, (f i).y, (f i).z]).getD _ 0 = _
          rw [List.getD_append_right _ _ _ _ (by omega)]
          simp [hlen]
          try omega

lemma copyInto_eq_right (src : List ℝ) :
    ∀ dst : List ℝ, dst.length = src.length → copyInto dst src = src := by
  induction src with
  | nil =>
    intro dst h
    cases dst with
    | nil => rfl
    | cons d ds => simp at h
  | cons s ss ih =>
    intro dst h
    cases dst with
    | nil => simp at h
    | cons d ds =>
      simp only [List.length_cons, Nat.add_right_cancel_iff] at h
      simp [copyInto, ih ds h]

lemma vdist_nonneg (a b : Vec3) : 0 ≤ vdist a b :=
  Real.sqrt_nonneg _

lemma vdist_eq_zero_iff (a b : Vec3) : vdist a b = 0 ↔ a = b := by
  unfold vdist
  constructor
  · intro h
    have hle := Real.sqrt_eq_zero'.mp h
    have s1 := sq_nonneg (a.x - b.x)
    have s2 := sq_nonneg (a.y - b.y)
    have s3 := sq_nonneg (a.z - b.z)
    have hx : (a.x - b.x) ^ 2 = 0 := by nlinarith [s1, s2, s3]
    have hy : (a.y - b.y) ^ 2 = 0 := by nlinarith [s1, s2, s3]
    have hz : (a.z - b.z) ^ 2 = 0 := by nlinarith [s1, s2, s3]
    have hx0 := sq_eq_zero_iff.mp hx
    have hy0 := sq_eq_zero_iff.mp hy
    have hz0 := sq_eq_zero_iff.mp hz
    ext
    · linarith
    · linarith
    · linarith
  · rintro rfl
    simp

lemma vdist_pos_of_ne {a b : Vec3} (h : a ≠ b) : 0 < vdist a b := by
  rcases lt_or_eq_of_le (vdist_nonneg a b) with hlt | heq
  · exact hlt
  · exact absurd ((vdist_eq_zero_iff a b).mp heq.symm) h

lemma vdist_animateStep (p t : Vec3) (l : ℝ) :
    vdist (animateStep p t l) t = |1 - l| * vdist p t := by
  unfold vdist animateStep
  simp only
  rw [show (p.x + (t.x - p.x) * l - t.x) ^ 2 + (p.y + (t.y - p.y) * l - t.y) ^ 2 +
        (p.z + (t.z - p.z) * l - t.z) ^ 2 =
      (1 - l) ^ 2 * ((p.x - t.x) ^ 2 + (p.y - t.y) ^ 2 + (p.z - t.z) ^ 2) from by ring]
  rw [Real.sqrt_mul (sq_nonneg _), Real.sqrt_sq_eq_abs]

lemma animateIter_fixed (t : Vec3) (l : ℝ) : ∀ n, animateIter t l n t = t := by
  intro n
  induction n with
  | zero => rfl
  | succ n ih =>
    show animateStep (animateIter t l n t) t l = t
    rw [ih]
    ext <;> simp [animateStep]

lemma noHandIter_fields (g : GestureState) : ∀ n,
    (noHandIter n g).isOpen = g.isOpen ∧
    (noHandIter n g).rotationX = g.rotationX ∧
    (noHandIter n g).pinchDistance = g.pinchDistance ∧
    (noHandIter n g).isPinching = g.isPinching := by
  intro n
  induction n with
  | zero => exact ⟨rfl, rfl, rfl, rfl⟩
  | succ n ih => simpa [noHandIter, noHandUpdate] using ih

lemma max_sub_max (x a d : ℝ) (hd : 0 ≤ d) :
    max 0 (max 0 (x - a) - d) = max 0 (x - (a + d)) := by
  rcases le_total (x - a) 0 with h | h
  · rw [max_eq_left h, zero_sub, max_eq_left (by linarith), max_eq_left (by linarith)]
  · rw [max_eq_right h]
    congr 1
    ring

lemma noHandIter_openness (g : GestureState) (n : ℕ) (hn : 1 ≤ n) :
    (noHandIter n g).openness = max 0 (g.openness - n * 0.05) := by
  induction n with
  | zero => omega
  | succ n ih =>
    rcases Nat.eq_zero_or_pos n with rfl | hpos
    · show (noHandUpdate (noHandIter 0 g)).openness = _
      norm_num [noHandUpdate, noHandIter]
    · show (noHandUpdate (noHandIter n g)).openness = _
      rw [show (noHandUpdate (noHandIter n g)).openness =
        max 0 ((noHandIter n g).openness - 0.05) from rfl]
      rw [ih hpos, max_sub_max _ _ _ (by norm_num)]
      congr 1
      push_cast
      ring

lemma noHandIter_openness_nonneg (g : GestureState) (h0 : 0 ≤ g.openness) :
    ∀ n, 0 ≤ (noHandIter n g).openness := by
  intro n
  cases n with
  | zero => exact h0
  | succ n => exact le_max_left _ _

lemma sin_cos_norm (r θ φ : ℝ) :
    (r * Real.sin φ * Real.cos θ) ^ 2 + (r * Real.sin φ * Real.sin θ) ^ 2 +
      (r * Real.cos φ) ^ 2 = r ^ 2 := by
  have h1 := Real.sin_sq_add_cos_sq θ
  have h2 := Real.sin_sq_add_cos_sq φ
  linear_combination (r ^ 2 * Real.sin φ ^ 2) * h1 + r ^ 2 * h2

lemma distOrigin_randomOnSphere (u₁ u₂ u₃ : ℝ) (h0 : 0 ≤ u₃) :
    distOrigin (randomOnSphere u₁ u₂ u₃) = 4 + u₃ := by
  simp only [distOrigin, randomOnSphere]
  rw [sin_cos_norm]
  exact Real.sqrt_sq (by linarith)

lemma interpretedGesture_openness_bounds
    (w t i m r p k : Landmark) :
    0 ≤ (interpretedGesture w t i m r p k).openness ∧
    (interpretedGesture w t i m r p k).openness ≤ 1 := by
  simp only [interpretedGesture]
  exact ⟨le_min (le_max_right _ _) zero_le_one, min_le_right _ _⟩

lemma interpretedGesture_pinch (w t i m r p k : Landmark) :
    ((interpretedGesture w t i m r p k).isPinching = true ↔
      landmarkDist t i < 0.05) ∧
    (interpretedGesture w t i m r p k).pinchDistance = landmarkDist t i := by
  simp [interpretedGesture]

lemma interpretLandmarks_some (lms : List Landmark) (g : GestureState)
    (hg : interpretLandmarks lms = some g) :
    ∃ wrist thumbTip indexTip middleTip ringTip pinkyTip knuckle,
      lms[0]? = some wrist ∧ lms[4]? = some thumbTip ∧ lms[8]? = some indexTip ∧
      lms[12]? = some middleTip ∧ lms[16]? = some ringTip ∧
      lms[20]? = some pinkyTip ∧ lms[9]? = some knuckle ∧
      g = interpretedGesture wrist thumbTip indexTip middleTip ringTip pinkyTip knuckle := by
  unfold interpretLandmarks at hg
  split at hg
  · rename_i wrist thumbTip indexTip middleTip ringTip pinkyTip knuckle h0 h4 h8 h12 h16 h20 h9
    exact ⟨wrist, thumbTip, indexTip, middleTip, ringTip, pinkyTip, knuckle,
      h0, h4, h8, h12, h16, h20, h9, (Option.some.inj hg).symm⟩
  · cases hg

lemma testHand_getElem (i : ℕ) (hi : i < 21) :
    testHand[i]? = some { x := 0, y := 0 } := by
  rw [testHand]
  exact List.getElem?_replicate_of_lt hi

lemma landmarkDist_self (a : Landmark) : landmarkDist a a = 0 := by
  simp [landmarkDist]

lemma interpretedGesture_zero :
    interpretedGesture { x := 0, y := 0 } { x := 0, y := 0 } { x := 0, y := 0 }
      { x := 0, y := 0 } { x := 0, y := 0 } { x := 0, y := 0 } { x := 0, y := 0 } =
    testHandGesture := by
  norm_num [interpretedGesture, testHandGesture, landmarkDist_self, min_def, max_def,
    decide_eq_true_eq, decide_eq_false_iff_not]

lemma interpret_testHand : interpretLandmarks testHand = some testHandGesture := by
  unfold interpretLandmarks
  rw [testHand_getElem 0 (by norm_num), testHand_getElem 4 (by norm_num),
    testHand_getElem 8 (by norm_num), testHand_getElem 12 (by norm_num),
    testHand_getElem 16 (by norm_num), testHand_getElem 20 (by norm_num),
    testHand_getElem 9 (by norm_num)]
  exact congrArg some interpretedGesture_zero

/-! ## Claim theorems -/

/-- Claim C1: holding the adjusted target fixed (twinkle offset disregarded)
and iterating the per-frame step `position += (target - position) * lerpSpeed`
with `lerpSpeed = 3.0 * deltaTime` and `0 < lerpSpeed < 1`, while the position
differs from the target the distance to the target strictly decreases, the
step never crosses past the target on any axis, and the target is a fixed
point of the step. -/
theorem animator_smoothing_convergence (delta : ℝ) (t p : Vec3) (n : ℕ)
    (hd : 0 < delta) (h1 : lerpSpeed delta < 1)
    (hne : animateIter t (lerpSpeed delta) n p ≠ t) :
    vdist (animateIter t (lerpSpeed delta) (n + 1) p) t <
      vdist (animateIter t (lerpSpeed delta) n p) t ∧
    0 ≤ (t.x - (animateIter t (lerpSpeed delta) (n + 1) p).x) *
      (t.x - (animateIter t (lerpSpeed delta) n p).x) ∧
    0 ≤ (t.y - (animateIter t (lerpSpeed delta) (n + 1) p).y) *
      (t.y - (animateIter t (lerpSpeed delta) n p).y) ∧
    0 ≤ (t.z - (animateIter t (lerpSpeed delta) (n + 1) p).z) *
      (t.z - (animateIter t (lerpSpeed delta) n p).z) ∧
    animateStep t t (lerpSpeed delta) = t ∧
    animateIter t (lerpSpeed delta) n t = t := by
  have hl0 : 0 < lerpSpeed delta := by unfold lerpSpeed; linarith
  set l := lerpSpeed delta with hl
  set q := animateIter t l n p with hq
  have hstep : animateIter t l (n + 1) p = animateStep q t l := rfl
  refine ⟨?_, ?_, ?_, ?_, ?_, animateIter_fixed t l n⟩
  · rw [hstep, vdist_animateStep, abs_of_pos (by linarith)]
    exact mul_lt_of_lt_one_left (vdist_pos_of_ne hne) (by linarith)
  · rw [hstep]
    have he : (t.x - (animateStep q t l).x) * (t.x - q.x) =
        (1 - l) * (t.x - q.x) ^ 2 := by
      simp only [animateStep]
      ring
    rw [he]
    exact mul_nonneg (by linarith) (sq_nonneg _)
  · rw [hstep]
    have he : (t.y - (animateStep q t l).y) * (t.y - q.y) =
        (1 - l) * (t.y - q.y) ^ 2 := by
      simp only [animateStep]
      ring
    rw [he]
    exact mul_nonneg (by linarith) (sq_nonneg _)
  · rw [hstep]
    have he : (t.z - (animateStep q t l).z) * (t.z - q.z) =
        (1 - l) * (t.z - q.z) ^ 2 := by
      simp only [animateStep]
      ring
    rw [he]
    exact mul_nonneg (by linarith) (sq_nonneg _)
  · ext <;> simp [animateStep]

/-- Witness for C1 at `deltaTime = 1/6` (so `lerpSpeed = 1/2`), target the
origin and start `(1,0,0)`: the first frame strictly decreases the distance. -/
theorem animator_smoothing_convergence_witness :
    vdist (animateIter ⟨0, 0, 0⟩ (lerpSpeed (1/6)) 1 ⟨1, 0, 0⟩) ⟨0, 0, 0⟩ <
      vdist (animateIter ⟨0, 0, 0⟩ (lerpSpeed (1/6)) 0 ⟨1, 0, 0⟩) ⟨0, 0, 0⟩ :=
  (animator_smoothing_convergence (1/6) ⟨0, 0, 0⟩ ⟨1, 0, 0⟩ 0 (by norm_num)
    (by norm_num [lerpSpeed]) (by norm_num [animateIter, Vec3.ext_iff])).1

/-- Claim C2: for positive deltaTime, with a hand detected the rotation
increment is `(rotationX - 0.5) * 2 * rotationGain * deltaTime` — positive at
`rotationX = 0.8`, negative at `0.2`, zero at `0.5` — and with no hand it is
the idle increment `0.1 * deltaTime`, independent of `rotationX`. -/
theorem rotation_sign (delta : ℝ) (hd : 0 < delta) :
    (∀ rx : ℝ, rotationDelta true rx delta = (rx - 0.5) * 2 * rotationGain * delta) ∧
    0 < rotationDelta true 0.8 delta ∧
    rotationDelta true 0.2 delta < 0 ∧
    rotationDelta true 0.5 delta = 0 ∧
    ∀ rx : ℝ, rotationDelta false rx delta = 0.1 * delta := by
  refine ⟨?_, ?_, ?_, ?_, fun rx => rfl⟩
  · intro rx
    simp only [rotationDelta, rotationGain, if_true]
    ring
  · have he : rotationDelta true 0.8 delta = 1.2 * delta := by
      simp only [rotationDelta, if_true]
      ring_nf
    rw [he]
    linarith
  · have he : rotationDelta true 0.2 delta = -(1.2 * delta) := by
      simp only [rotationDelta, if_true]
      ring_nf
    rw [he]
    linarith
  · simp only [rotationDelta, if_true]
    norm_num

/-- Witness for C2 at `deltaTime = 1`: the increment at `rotationX = 0.8` is
positive. -/
theorem rotation_sign_witness : 0 < rotationDelta true 0.8 1 :=
  (rotation_sign 1 (by norm_num)).2.1

/-- Claim C3: for every shape of the closed set and every count, the chosen
generator returns a flat buffer of exactly `3 * count` entries, and for
`count = 0` it returns the empty buffer. -/
theorem shape_generator_count (shape : ShapeType) (count : ℕ) (rnd : RandSource) :
    (shapeTargetPoints shape count rnd).length = 3 * count ∧
    shapeTargetPoints shape 0 rnd = [] := by
  refine ⟨shapeTargetPoints_length shape count rnd, ?_⟩
  cases shape <;> rfl

/-- Claim C4: after `n ≥ 1` consecutive "no hand" interpretations from a
state with nonnegative openness `v`, openness equals `max 0 (v - n * 0.05)`,
the openness sequence never increases, `handDetected` is false throughout,
and every other field keeps its previous value. -/
theorem gesture_decay (g : GestureState) (n : ℕ) (hn : 1 ≤ n)
    (h0 : 0 ≤ g.openness) :
    (noHandIter n g).openness = max 0 (g.openness - n * 0.05) ∧
    (∀ m : ℕ, (noHandIter (m + 1) g).openness ≤ (noHandIter m g).openness) ∧
    (∀ m : ℕ, 1 ≤ m → (noHandIter m g).handDetected = false) ∧
    (noHandIter n g).isOpen = g.isOpen ∧
    (noHandIter n g).rotationX = g.rotationX ∧
    (noHandIter n g).pinchDistance = g.pinchDistance ∧
    (noHandIter n g).isPinching = g.isPinching := by
  obtain ⟨f1, f2, f3, f4⟩ := noHandIter_fields g n
  refine ⟨noHandIter_openness g n hn, ?_, ?_, f1, f2, f3, f4⟩
  · intro m
    have hm0 := noHandIter_openness_nonneg g h0 m
    show (noHandUpdate (noHandIter m g)).openness ≤ _
    simp only [noHandUpdate]
    exact max_le hm0 (by linarith)
  · intro m hm
    cases m with
    | zero => omega
    | succ k => rfl

/-- Witness for C4 on the initial gesture state and one decay step. -/
theorem gesture_decay_witness :
    (noHandIter 1 gIdle).openness = max 0 (gIdle.openness - (1 : ℕ) * 0.05) :=
  (gesture_decay gIdle 1 (by norm_num) (by norm_num [gIdle])).1

/-- Counterexample for C5: with openness `1.1` (slightly above 1) the
per-frame step does not behave as if openness had been clamped to `[0,1]` —
the adjusted target and hence the smoothing result differ. -/
theorem animator_clamp_cex :
    animateAxis 0 1 (spreadFactor 1.1) 0.5 1 ≠
      animateAxis 0 1 (spreadFactor (clamp01 1.1)) 0.5 1 := by
  have hc : clamp01 1.1 = 1 := by
    unfold clamp01
    rw [max_eq_left (by norm_num), min_eq_right (by norm_num)]
  rw [hc]
  unfold animateAxis adjustTarget spreadFactor
  rw [if_pos (by norm_num), if_pos (by norm_num)]
  norm_num

/-- Claim C5 as amended: the per-frame step is pure total arithmetic; it does
not clamp openness itself.  Openness at or below 0 leaves the spread branch
off, so there the step agrees with the clamped computation, and the clamp
into `[0,1]` is performed upstream by the gesture interpreter, whose produced
openness always lies in `[0,1]`; on such in-range openness the step trivially
agrees with its clamped version. -/
theorem animator_clamp_amended (pos t j l o : ℝ) (lms : List Landmark)
    (g : GestureState) (ho : o ≤ 0) (hg : interpretLandmarks lms = some g) :
    animateAxis pos t (spreadFactor o) j l =
      animateAxis pos t (spreadFactor (clamp01 o)) j l ∧
    (0 ≤ g.openness ∧ g.openness ≤ 1) ∧
    ∀ o' : ℝ, 0 ≤ o' → o' ≤ 1 →
      animateAxis pos t (spreadFactor o') j l =
        animateAxis pos t (spreadFactor (clamp01 o')) j l := by
  refine ⟨?_, ?_, ?_⟩
  · have hc : clamp01 o = 0 := by
      unfold clamp01
      rw [max_eq_right ho, min_eq_left zero_le_one]
    rw [hc]
    unfold animateAxis adjustTarget spreadFactor
    rw [if_neg (by push_neg; linarith), if_neg (by norm_num)]
  · obtain ⟨w, tt, it, mt, rt, pt, k, _, _, _, _, _, _, _, hgi⟩ :=
      interpretLandmarks_some lms g hg
    rw [hgi]
    exact interpretedGesture_openness_bounds w tt it mt rt pt k
  · intro o' ho0 ho1
    have hc : clamp01 o' = o' := by
      unfold clamp01
      rw [max_eq_left ho0, min_eq_left ho1]
    rw [hc]

/-- Witness for C5's amended claim: the interpreter's openness on a concrete
full hand lies in `[0,1]`. -/
theorem animator_clamp_amended_witness :
    0 ≤ testHandGesture.openness ∧ testHandGesture.openness ≤ 1 :=
  (animator_clamp_amended 0 0 0 0 0 testHand testHandGesture (by norm_num)
    interpret_testHand).2.1

/-- Claim C6: after the retarget effect runs with the heart generator's
output, the target stream equals that output (so every particle's targetBase
entries equal the generator's), while the current positions, colors and sizes
are unchanged until the next animate step. -/
theorem retarget_frame_effect (st : ParticleStore) (rnd : RandSource)
    (hlen : st.targetPositions.length = 3 * st.count) :
    (retargetStore st (shapeTargetPoints ShapeType.HEART st.count rnd)).targetPositions =
      shapeTargetPoints ShapeType.HEART st.count rnd ∧
    (retargetStore st (shapeTargetPoints ShapeType.HEART st.count rnd)).currentPositions =
      st.currentPositions ∧
    (retargetStore st (shapeTargetPoints ShapeType.HEART st.count rnd)).colors =
      st.colors ∧
    (retargetStore st (shapeTargetPoints ShapeType.HEART st.count rnd)).sizes =
      st.sizes := by
  refine ⟨?_, rfl, rfl, rfl⟩
  exact copyInto_eq_right _ _ (by rw [hlen, shapeTargetPoints_length])

/-- Witness for C6 on a concrete one-particle store. -/
theorem retarget_frame_effect_witness :
    (retargetStore storeW (shapeTargetPoints ShapeType.HEART storeW.count
      (fun _ _ => 0))).targetPositions =
      shapeTargetPoints ShapeType.HEART storeW.count (fun _ _ => 0) :=
  (retarget_frame_effect storeW (fun _ _ => 0) rfl).1

/-- Claim C7: every point of the sphere generator's output (random draws in
`[0,1]`) lies at distance between 4 and 5 from the origin. -/
theorem sphere_shell_bound (count : ℕ) (rnd : RandSource) (i : ℕ)
    (hrnd : ∀ k j : ℕ, 0 ≤ rnd k j ∧ rnd k j ≤ 1) (hi : i < count) :
    4 ≤ distOrigin (listPoint (generateSpherePoints count rnd) i) ∧
    distOrigin (listPoint (generateSpherePoints count rnd) i) ≤ 5 := by
  have hpt : listPoint (generateSpherePoints count rnd) i =
      randomOnSphere (rnd 0 i) (rnd 1 i) (rnd 2 i) := by
    obtain ⟨hx, hy, hz⟩ := flattenPoints_getD
      (fun j => randomOnSphere (rnd 0 j) (rnd 1 j) (rnd 2 j)) count i hi
    unfold listPoint generateSpherePoints
    ext
    · exact hx
    · exact hy
    · exact hz
  obtain ⟨h0, h1⟩ := hrnd 2 i
  rw [hpt, distOrigin_randomOnSphere _ _ _ h0]
  constructor <;> linarith

/-- Witness for C7 on a one-point sphere cloud with all draws 0. -/
theorem sphere_shell_bound_witness :
    4 ≤ distOrigin (listPoint (generateSpherePoints 1 (fun _ _ => 0)) 0) ∧
    distOrigin (listPoint (generateSpherePoints 1 (fun _ _ => 0)) 0) ≤ 5 :=
  sphere_shell_bound 1 (fun _ _ => 0) 0 (fun _ _ => ⟨le_refl 0, zero_le_one⟩)
    (by norm_num)

/-- Counterexample for C8: the tree generator adds no jitter on the y axis —
at count 1, index 0 the code's y coordinate is exactly 4 whatever the random
draws, while the claim's formula (jitter on each of the three axes) gives a
different y for the draw 0.7. -/
theorem tree_jitter_cex :
    (generateTreePoint 1 0 (7/10) (7/10)).y = 4 ∧
    (generateTreePoint 1 0 0 0).y = (generateTreePoint 1 0 1 1).y ∧
    (generateTreePointClaim 1 0 (7/10) (7/10) (7/10)).y ≠ 4 := by
  refine ⟨?_, ?_, ?_⟩ <;> norm_num [generateTreePoint, generateTreePointClaim]

/-- Claim C8 as amended: for count ≥ 1 the `i`-th tree point uses
`t = i/count`, spiral angle `t * 2π * 10`, radius `3.5 * t` growing linearly,
height `4 - 7t` decreasing linearly, and a random jitter of magnitude at most
0.25 on the x and z axes only — the y coordinate carries no jitter. -/
theorem tree_formula_amended (count i : ℕ) (jx jz : ℝ) (_hc : 1 ≤ count)
    (hjx0 : 0 ≤ jx) (hjx1 : jx ≤ 1) (hjz0 : 0 ≤ jz) (hjz1 : jz ≤ 1) :
    (generateTreePoint count i jx jz).x =
      Real.cos (((i : ℝ) / (count : ℝ)) * (2 * Real.pi) * 10) *
        (3.5 * ((i : ℝ) / (count : ℝ))) + (jx - 0.5) * 0.5 ∧
    (generateTreePoint count i jx jz).y = 4 - 7 * ((i : ℝ) / (count : ℝ)) ∧
    (generateTreePoint count i jx jz).z =
      Real.sin (((i : ℝ) / (count : ℝ)) * (2 * Real.pi) * 10) *
        (3.5 * ((i : ℝ) / (count : ℝ))) + (jz - 0.5) * 0.5 ∧
    |(jx - 0.5) * 0.5| ≤ 0.25 ∧ |(jz - 0.5) * 0.5| ≤ 0.25 := by
  have harg : ((i : ℝ) / (count : ℝ)) * Real.pi * 20 =
      ((i : ℝ) / (count : ℝ)) * (2 * Real.pi) * 10 := by ring
  refine ⟨?_, ?_, ?_, ?_, ?_⟩
  · simp only [generateTreePoint]
    rw [harg]
    ring
  · simp only [generateTreePoint]
    ring
  · simp only [generateTreePoint]
    rw [harg]
    ring
  · rw [abs_le]
    constructor <;> linarith
  · rw [abs_le]
    constructor <;> linarith

/-- Witness for C8's amended claim at count 1, index 0, draws 1 and 0: the
y coordinate is the jitter-free height. -/
theorem tree_formula_amended_witness :
    (generateTreePoint 1 0 1 0).y = 4 - 7 * (((0 : ℕ) : ℝ) / ((1 : ℕ) : ℝ)) :=
  (tree_formula_amended 1 0 1 0 (by norm_num) (by norm_num) (by norm_num)
    (by norm_num) (by norm_num)).2.1

/-- Claim C9: for every interpreted hand frame, `isPinching` holds exactly
when the thumb-tip/index-tip Euclidean distance is below 0.05; in particular
distances 0.03 and 0.049 pinch while 0.1 and 0.051 do not, and
`pinchDistance` is that thumb-tip/index-tip distance. -/
theorem pinch_threshold (lms : List Landmark) (g : GestureState)
    (hg : interpretLandmarks lms = some g) :
    (g.isPinching = true ↔ g.pinchDistance < 0.05) ∧
    (g.pinchDistance = 0.03 → g.isPinching = true) ∧
    (g.pinchDistance = 0.049 → g.isPinching = true) ∧
    (g.pinchDistance = 0.1 → g.isPinching = false) ∧
    (g.pinchDistance = 0.051 → g.isPinching = false) ∧
    ∀ thumbTip indexTip : Landmark,
      lms[4]? = some thumbTip → lms[8]? = some indexTip →
      g.pinchDistance = landmarkDist thumbTip indexTip := by
  obtain ⟨w, tt, it, mt, rt, pt, k, h0, h4, h8, h12, h16, h20, h9, hgi⟩ :=
    interpretLandmarks_some lms g hg
  obtain ⟨hiff, hpd⟩ := interpretedGesture_pinch w tt it mt rt pt k
  subst hgi
  have hmain : (interpretedGesture w tt it mt rt pt k).isPinching = true ↔
      (interpretedGesture w tt it mt rt pt k).pinchDistance < 0.05 := by
    rw [hpd]
    exact hiff
  refine ⟨hmain, ?_, ?_, ?_, ?_, ?_⟩
  · intro h
    exact hmain.mpr (by rw [h]; norm_num)
  · intro h
    exact hmain.mpr (by rw [h]; norm_num)
  · intro h
    exact Bool.eq_false_iff.mpr fun hT => absurd (hmain.mp hT) (by rw [h]; norm_num)
  · intro h
    exact Bool.eq_false_iff.mpr fun hT => absurd (hmain.mp hT) (by rw [h]; norm_num)
  · intro tt' it' h4' h8'
    rw [h4] at h4'
    rw [h8] at h8'
    rw [← Option.some.inj h4', ← Option.some.inj h8']
    exact hpd

/-- Witness for C9 on a concrete full 21-landmark hand. -/
theorem pinch_threshold_witness :
    testHandGesture.isPinching = true ↔ testHandGesture.pinchDistance < 0.05 :=
  (pinch_threshold testHand testHandGesture interpret_testHand).1

/-- Claim C10 (code bug): on a detector result whose landmark list misses the
expected indices, `predictWebcam` dereferences an absent landmark and throws
(modelled `none`) instead of taking the "no hand" branch the claim (and the
spec's error-handling policy) requires. -/
theorem malformed_hand_crashes :
    predictStep gIdle (some malformedHand) = none ∧
    predictStep gIdle none = some (noHandUpdate gIdle) ∧
    predictStep gIdle (some malformedHand) ≠ some (noHandUpdate gIdle) := by
  refine ⟨rfl, rfl, ?_⟩
  intro h
  rw [show predictStep gIdle (some malformedHand) = none from rfl] at h
  cases h
